import Mathlib

/-!
# Verification of the luna-vault bonding/unbonding engine and flash-loan protocol

Shallow embedding of `contracts/luna-vault/src/commands.rs` and
`contracts/luna-vault/src/flashloan.rs` (the bonding/unbonding accounting
engine and the flash-loan profit-enforcement protocol).

Modelling conventions:
* `Uint128` is modelled as `Nat`; the claims under study never concern 128-bit
  wrap-around, and cosmwasm's `Uint128` arithmetic panics (aborting the
  transaction) instead of wrapping.  `checked_sub` is modelled explicitly as
  an `Except`-valued operation; a Rust panic (`.expect`, bare `-`) likewise
  aborts the whole transaction and is modelled as the same `Except.error`.
* cosmwasm's `Decimal` is a fixed-point number with 18 fractional decimal
  digits; it is modelled as its atomics (numerator over `10^18`).
* Storage writes are modelled by explicit state passing; an `Except.error`
  result models the abort of the entire transaction (no state persisted),
  matching the host's all-or-nothing rollback semantics.
* External collaborators (token-supply query, balance query, valuation
  oracle, tax oracle) are modelled as explicit input parameters.
* Repository code that the two embedded files call but whose source is not
  part of the embedded core (the `signed_integer` package, `state.rs`,
  `helpers.rs`, `math.rs`, the `Fee` type) is modelled from the spec; each
  such definition is marked `Modelled from the spec:`.
-/

namespace LunaVault

/-- cosmwasm `Decimal`: 18 fractional decimal digits. -/
def DECIMAL_FRACTIONAL : Nat := 1000000000000000000

/-- cosmwasm `Decimal`, represented by its atomics (value = atomics / 10^18). -/
structure Dec where
  atomics : Nat
deriving DecidableEq, Repr

/-- `Decimal::one()`. -/
def Dec.one : Dec := ⟨DECIMAL_FRACTIONAL⟩

/-- `Decimal::from_ratio(n, d)`: atomics are `n * 10^18 / d`, flooring. -/
def Dec.from_ratio (n d : Nat) : Dec := ⟨n * DECIMAL_FRACTIONAL / d⟩

/-- `Uint128 * Decimal` (and `Decimal * Uint128`): full-precision multiply,
then floor: `a * atomics / 10^18`. -/
def mulDec (a : Nat) (d : Dec) : Nat := a * d.atomics / DECIMAL_FRACTIONAL

/-- Error type of the vault (`error.rs` variants used by the embedded code;
`Overflow` stands for any arithmetic (overflow/underflow) abort, whether
surfaced as a checked-subtraction error or a panic). -/
inductive LunaVaultError where
  | Unauthorized
  | DepositDuringLoan
  | InvalidDeposit
  | TooSmallBurn
  | NotWhitelisted
  | Broke
  | CancelLosingTrade
  | NotCallback
  | Nonzero
  | NoWithdrawableAssetsAvailable (denom : String)
  | Overflow
deriving DecidableEq, Repr

/-- `Uint128::checked_sub` followed by `?`: errors (aborting the whole
transaction) when the subtrahend exceeds the minuend. -/
def checked_sub (a b : Nat) : Except LunaVaultError Nat :=
  if b ≤ a then Except.ok (a - b) else Except.error LunaVaultError.Overflow

/-- Modelled from the spec: the repository's `signed_integer` package uses a
"signed-subtraction-with-flag idiom ... value + sign bit structs" (§9);
`mag` is the absolute difference and `neg` the sign bit. -/
structure SignedInt where
  mag : Nat
  neg : Bool
deriving DecidableEq, Repr

/-- Modelled from the spec: `SignedInt::from_subtraction(minuend, subtrahend)`
computes the signed difference `minuend − subtrahend` as magnitude plus sign
("`balance_change = live_balance − prev_vault_balance` (signed)", §4.4;
"negative means the vault gained more than expected", §4.4 step 3). -/
def SignedInt.fromSubtraction (minuend subtrahend : Nat) : SignedInt :=
  if subtrahend > minuend then ⟨subtrahend - minuend, true⟩
  else ⟨minuend - subtrahend, false⟩

/-- Modelled from the spec: a `Fee` is "a configured rate" (§4.6 step 2);
`compute` applies the rate to an amount. -/
structure Fee where
  share : Dec
deriving DecidableEq, Repr

/-- Modelled from the spec: applying a configured fee rate to an amount. -/
def Fee.compute (f : Fee) (amount : Nat) : Nat := mulDec amount f.share

/-- The vault's fee configuration (`FEE` record: flash-loan, treasury and
commission fees plus the treasury address). -/
structure FeeConfig where
  flash_loan_fee : Fee
  treasury_fee : Fee
  commission_fee : Fee
  treasury_addr : String
deriving DecidableEq, Repr

/-- `ProfitCheckpoint` (`PROFIT` record): `last_balance` is zero exactly when
no flash loan is in flight. -/
structure ProfitCheck where
  last_balance : Nat
  last_profit : Nat
deriving DecidableEq, Repr

/-- The vault `State` record (the fields the embedded code uses). -/
structure State where
  total_bond_amount : Nat
  exchange_rate : Dec
  last_unbonded_time : Nat
  prev_vault_balance : Nat
  actual_unbonded_amount : Nat
  last_processed_batch : Nat
  allow_non_whitelisted : Bool
  whitelisted_contracts : List String
deriving DecidableEq, Repr

/-- Protocol parameters (`PARAMETERS` record). -/
structure Params where
  epoch_period : Nat
  unbonding_period : Nat
  peg_recovery_fee : Dec
  er_threshold : Dec
deriving DecidableEq, Repr

/-- `CurrentBatch` record. -/
structure CurrentBatch where
  id : Nat
  requested_with_fee : Nat
deriving DecidableEq, Repr

/-- `UnbondHistory` record. -/
structure UnbondHistory where
  batch_id : Nat
  time : Nat
  amount : Nat
  applied_exchange_rate : Dec
  withdraw_rate : Dec
  released : Bool
deriving DecidableEq, Repr

/-- An `UnbondWaitEntry`, keyed by `(batch_id, user)` (§3). -/
structure WaitEntry where
  batch : Nat
  user : String
  amount : Nat
deriving DecidableEq, Repr

/-- The portion of persisted storage the embedded operations touch. -/
structure Storage where
  state : State
  histories : List UnbondHistory
  waitList : List WaitEntry
deriving DecidableEq, Repr

/-- Modelled from the spec: the persistence collaborator's typed load of
`UnbondHistory[id]` (§6); `read_unbond_history` in `state.rs`. -/
def read_unbond_history (hs : List UnbondHistory) (i : Nat) : Option UnbondHistory :=
  hs.find? (fun h => h.batch_id == i)

/-- Modelled from the spec: the persistence collaborator's typed save of
`UnbondHistory[id]` (§6); `store_unbond_history` in `state.rs`.  Replaces the
record with the given batch id (appending when absent). -/
def store_unbond_history (hs : List UnbondHistory) (i : Nat) (h : UnbondHistory) :
    List UnbondHistory :=
  match hs with
  | [] => [h]
  | x :: rest =>
    if x.batch_id == i then h :: rest else x :: store_unbond_history rest i h

/-- Modelled from the spec: `State::update_exchange_rate` — "Rate =
`total_bond_amount / (total_supply + pending_requested)` ... Must tolerate
`total_supply + pending_requested == 0` by ... return the previous rate
rather than dividing by zero" (§4.1). -/
def State.update_exchange_rate (s : State) (total_supply requested_with_fee : Nat) : State :=
  if total_supply + requested_with_fee = 0 then s
  else { s with exchange_rate := Dec.from_ratio s.total_bond_amount (total_supply + requested_with_fee) }

/-! ## Flash-loan orchestrator (`flashloan.rs`) -/

/-- `flashloan.rs`: `const ROUNDING_ERR_COMPENSATION: u32 = 10u32;`. -/
def ROUNDING_ERR_COMPENSATION : Nat := 10

/-- `before_trade` (`flashloan.rs` lines 112–133): fails when a loan is
already in flight (`last_balance != 0`), otherwise zeroes `last_profit` and
records the current total valuation into `last_balance`.  The valuation
returned by `compute_total_value` is an input (valuation collaborator, §6). -/
def before_trade (profit : ProfitCheck) (valuation : Nat) :
    Except LunaVaultError ProfitCheck :=
  if profit.last_balance ≠ 0 then Except.error LunaVaultError.Nonzero
  else Except.ok { last_profit := 0, last_balance := valuation }

/-- `send_commissions` (`flashloan.rs` lines 174–191): commission fee applied
to the profit, sent to the treasury address.  Returns (amount, recipient). -/
def send_commissions (fees : FeeConfig) (profit : Nat) : Nat × String :=
  (fees.commission_fee.compute profit, fees.treasury_addr)

/-- `after_trade` (`flashloan.rs` lines 136–170): recomputes valuation (an
input here), fails with `CancelLosingTrade` if it is below
`last_balance + loan_fee`; otherwise computes the profit, stores it, zeroes
`last_balance` and emits the commission transfer.  Returns the updated
`ProfitCheckpoint` and the commission (amount, recipient). -/
def after_trade (profit : ProfitCheck) (valuation loan_fee : Nat) (fees : FeeConfig) :
    Except LunaVaultError (ProfitCheck × Nat × String) :=
  if valuation < profit.last_balance + loan_fee then
    Except.error LunaVaultError.CancelLosingTrade
  else
    let p := valuation - profit.last_balance
    Except.ok ({ last_profit := p, last_balance := 0 }, send_commissions fees p)

/-- `CallbackMsg` of the vault. -/
inductive CallbackMsg where
  | AfterTrade (loan_fee : Nat)
deriving DecidableEq, Repr

/-- `_handle_callback` (`flashloan.rs` lines 222–230): callback functions can
only be called by the contract itself. -/
def handle_callback (sender contract_address : String) (msg : CallbackMsg)
    (profit : ProfitCheck) (valuation : Nat) (fees : FeeConfig) :
    Except LunaVaultError (ProfitCheck × Nat × String) :=
  if sender ≠ contract_address then Except.error LunaVaultError.NotCallback
  else
    match msg with
    | CallbackMsg.AfterTrade loan_fee => after_trade profit valuation loan_fee fees

/-- `handle_flashloan` (`flashloan.rs` lines 16–109).  `denom_ok` models
`deposit_info.assert` on the requested asset; `total_value` is the first
component of `compute_total_value` at the funds check; `tax` is the oracle's
per-transfer tax on the borrowed asset; `valuation` is the total value
`before_trade` snapshots.  Returns the loan fee and the updated profit
checkpoint. -/
def handle_flashloan (whitelisted_contracts : List String) (allow_non_whitelisted : Bool)
    (denom_ok : Bool) (fees : FeeConfig) (profit : ProfitCheck) (sender : String)
    (total_value requested_amount tax valuation : Nat) :
    Except LunaVaultError (Nat × ProfitCheck) :=
  if ¬ denom_ok then Except.error LunaVaultError.InvalidDeposit
  else
    match (if ¬ whitelisted_contracts.contains sender then
             (if allow_non_whitelisted then Except.ok false
              else Except.error LunaVaultError.NotWhitelisted)
           else Except.ok true) with
    | Except.error e => Except.error e
    | Except.ok whitelisted =>
      let tax_buffer := 2 * tax + ROUNDING_ERR_COMPENSATION
      if total_value < requested_amount + tax_buffer then
        Except.error LunaVaultError.Broke
      else
        let loan_fee := if whitelisted then 0 else fees.flash_loan_fee.compute requested_amount
        match before_trade profit valuation with
        | Except.error e => Except.error e
        | Except.ok profit2 => Except.ok (loan_fee, profit2)

/-! ## Bonding operation (`commands.rs`, `provide_liquidity`) -/

/-- Modelled from the spec: `decimal_division` from `math.rs` — "Raw mint =
`deposit / exchange_rate`" (§4.2 step 1), flooring division by a `Decimal`
using the rational representation. -/
def decimal_division (a : Nat) (d : Dec) : Nat := a * DECIMAL_FRACTIONAL / d.atomics

/-- `provide_liquidity` (`commands.rs` lines 45–122), starting from the
post-`slashing` state (`slashing` is the exchange-rate refresh helper; its
output state is the `state` input here).  `denom_ok` models
`deposit_info.assert` plus `assert_sent_native_token_balance`;
`total_supply` is the queried vLuna supply.  Returns the updated state and
the minted amount (the `Cw20ExecuteMsg::Mint` amount). -/
def provide_liquidity (profit : ProfitCheck) (denom_ok : Bool) (state : State)
    (params : Params) (current_batch : CurrentBatch) (total_supply deposit : Nat) :
    Except LunaVaultError (State × Nat) :=
  if profit.last_balance ≠ 0 then Except.error LunaVaultError.DepositDuringLoan
  else if ¬ denom_ok then Except.error LunaVaultError.InvalidDeposit
  else
    let requested_with_fee := current_batch.requested_with_fee
    let mint_amount := decimal_division deposit state.exchange_rate
    let step :=
      if state.exchange_rate.atomics < params.er_threshold.atomics then
        let max_peg_fee := mulDec mint_amount params.peg_recovery_fee
        match checked_sub (total_supply + mint_amount + current_batch.requested_with_fee)
            (state.total_bond_amount + deposit) with
        | Except.error e => Except.error e
        | Except.ok required_peg_fee =>
          let peg_fee := min max_peg_fee required_peg_fee
          checked_sub mint_amount peg_fee
      else Except.ok mint_amount
    match step with
    | Except.error e => Except.error e
    | Except.ok mint_amount_with_fee =>
      let total_supply2 := total_supply + mint_amount_with_fee
      let state2 := { state with total_bond_amount := state.total_bond_amount + deposit }
      let state3 := state2.update_exchange_rate total_supply2 requested_with_fee
      Except.ok (state3, mint_amount_with_fee)

/-! ## Unbond batch manager (`commands.rs`, `unbond`) -/

/-- The fee pipeline of `unbond` (`commands.rs` lines 160–174): the
peg-recovery fee (when the rate is below the threshold) followed by the
treasury fee (`get_treasury_fee`, modelled from the spec as the configured
flat rate on the pre-peg-fee amount, §4.3 step 3). -/
def unbond_amount_with_fee (state : State) (params : Params) (fee_config : FeeConfig)
    (current_batch : CurrentBatch) (total_supply amount : Nat) :
    Except LunaVaultError Nat :=
  let treasury_fee := fee_config.treasury_fee.compute amount
  let step :=
    if state.exchange_rate.atomics < params.er_threshold.atomics then
      let max_peg_fee := mulDec amount params.peg_recovery_fee
      match checked_sub (total_supply + current_batch.requested_with_fee)
          state.total_bond_amount with
      | Except.error e => Except.error e
      | Except.ok required_peg_fee =>
        let peg_fee := min max_peg_fee required_peg_fee
        checked_sub amount peg_fee
    else Except.ok amount
  match step with
  | Except.error e => Except.error e
  | Except.ok awf => checked_sub awf treasury_fee

/-- Successful result of `unbond`: the updated state and batch, the possibly
frozen history record, the wait-list entry amount, the treasury fee (paid
immediately as an asset transfer) and the burn amount. -/
structure UnbondOk where
  state : State
  batch : CurrentBatch
  frozen : Option UnbondHistory
  wait_amount : Nat
  treasury_fee : Nat
  burn_amount : Nat
deriving DecidableEq, Repr

/-- `unbond` (`commands.rs` lines 133–267), starting from the post-`slashing`
state.  `block_time` is `env.block.time.seconds()`. -/
def unbond (profit : ProfitCheck) (state : State) (params : Params)
    (fee_config : FeeConfig) (current_batch : CurrentBatch)
    (total_supply block_time amount : Nat) :
    Except LunaVaultError UnbondOk :=
  if profit.last_balance ≠ 0 then Except.error LunaVaultError.DepositDuringLoan
  else
    let treasury_fee := fee_config.treasury_fee.compute amount
    match unbond_amount_with_fee state params fee_config current_batch total_supply amount with
    | Except.error e => Except.error e
    | Except.ok amount_with_fee =>
      let requested2 := current_batch.requested_with_fee + amount_with_fee
      match checked_sub total_supply amount with
      | Except.error e => Except.error e
      | Except.ok total_supply2 =>
        let state2 := state.update_exchange_rate total_supply2 requested2
        let passed_time_seconds := block_time - state2.last_unbonded_time
        if passed_time_seconds > params.epoch_period then
          let undelegation_amount := mulDec requested2 state2.exchange_rate
          if undelegation_amount = 1 then Except.error LunaVaultError.TooSmallBurn
          else
            match checked_sub state2.total_bond_amount undelegation_amount with
            | Except.error e => Except.error e
            | Except.ok total_bond2 =>
              let history : UnbondHistory :=
                { batch_id := current_batch.id, time := block_time, amount := requested2,
                  applied_exchange_rate := state2.exchange_rate,
                  withdraw_rate := state2.exchange_rate, released := false }
              match checked_sub amount treasury_fee with
              | Except.error e => Except.error e
              | Except.ok burn_amount =>
                let state3 :=
                  { state2 with
                    total_bond_amount := total_bond2, last_unbonded_time := block_time }
                Except.ok
                  { state := state3,
                    batch := { id := current_batch.id + 1, requested_with_fee := 0 },
                    frozen := some history, wait_amount := amount_with_fee,
                    treasury_fee := treasury_fee, burn_amount := burn_amount }
        else
          match checked_sub amount treasury_fee with
          | Except.error e => Except.error e
          | Except.ok burn_amount =>
            Except.ok
              { state := state2,
                batch := { id := current_batch.id, requested_with_fee := requested2 },
                frozen := none, wait_amount := amount_with_fee,
                treasury_fee := treasury_fee, burn_amount := burn_amount }

/-! ## Withdrawal-rate reconciler (`commands.rs`, `_process_withdraw_rate`) -/

/-- `commands.rs` lines 332–333: the balance change is computed as a
`SignedInt` and its magnitude (`.0`) is added to the
`actual_unbonded_amount` accumulator. -/
def accumulate_balance_change (actual prev_vault_balance vault_balance : Nat) : Nat :=
  actual + (SignedInt.fromSubtraction vault_balance prev_vault_balance).mag

/-- First loop of `_process_withdraw_rate` (`commands.rs` lines 340–362):
scan unreleased batches from index `i`, stopping at a missing batch, a batch
past the cutoff time, or a released batch; accumulate
`(total_unbonded_amount, batch_count)`.  The Rust `loop` terminates because
each continuing iteration consumes a distinct stored batch id; `fuel` (set to
`histories.length + 1` by the caller) therefore never runs out. -/
def scan_batches (hs : List UnbondHistory) (historical_time : Nat) :
    Nat → Nat → Nat → Nat → Nat × Nat
  | _, 0, total, count => (total, count)
  | i, fuel + 1, total, count =>
    match read_unbond_history hs i with
    | none => (total, count)
    | some h =>
      if h.time > historical_time then (total, count)
      else if h.released then (total, count)
      else
        scan_batches hs historical_time (i + 1) fuel
          (total + mulDec h.amount h.withdraw_rate) (count + 1)

/-- Per-batch body of the second loop of `_process_withdraw_rate`
(`commands.rs` lines 388–414): the batch's proportional share of the slash,
with the one-unit rounding adjustment, giving the new withdraw rate.
When the slash is negative the share is `checked_sub`-reduced by one (an
arithmetic error aborts the whole transaction); when it is non-negative and
non-zero the share is increased by one and subtracted through
`SignedInt::from_subtraction(..).0`, i.e. the absolute difference. -/
def batch_adjust (slashed : SignedInt) (total_unbonded_amount : Nat)
    (h : UnbondHistory) : Except LunaVaultError Dec :=
  let unbonded_amount_of_batch := mulDec h.amount h.withdraw_rate
  let batch_slashing_weight := Dec.from_ratio unbonded_amount_of_batch total_unbonded_amount
  let slashed_amount_of_batch := mulDec slashed.mag batch_slashing_weight
  if slashed.neg then
    match checked_sub slashed_amount_of_batch 1 with
    | Except.error e => Except.error e
    | Except.ok s =>
      Except.ok (Dec.from_ratio (unbonded_amount_of_batch + s) h.amount)
  else
    let s := if slashed.mag ≠ 0 then slashed_amount_of_batch + 1 else slashed_amount_of_batch
    Except.ok
      (Dec.from_ratio (SignedInt.fromSubtraction unbonded_amount_of_batch s).mag h.amount)

/-- Second loop of `_process_withdraw_rate` (`commands.rs` lines 370–423):
re-scan the same range, adjust each batch by its share of the slash, store it
with `released := true` and advance `last_processed_batch`.  Returns the
updated histories and the new `last_processed_batch`. -/
def release_batches (historical_time : Nat) (slashed : SignedInt)
    (total_unbonded_amount : Nat) :
    Nat → Nat → List UnbondHistory → Nat →
    Except LunaVaultError (List UnbondHistory × Nat) :=
  fun i fuel hs last =>
    match fuel with
    | 0 => Except.ok (hs, last)
    | fuel + 1 =>
      match read_unbond_history hs i with
      | none => Except.ok (hs, last)
      | some h =>
        if h.time > historical_time then Except.ok (hs, last)
        else if h.released then Except.ok (hs, last)
        else
          match batch_adjust slashed total_unbonded_amount h with
          | Except.error e => Except.error e
          | Except.ok new_withdraw_rate =>
            let h2 := { h with withdraw_rate := new_withdraw_rate, released := true }
            release_batches historical_time slashed total_unbonded_amount
              (i + 1) fuel (store_unbond_history hs i h2) i

/-- `_process_withdraw_rate` (`commands.rs` lines 322–430).  An
`Except.error` models the abort of the entire transaction (no write
persists).  Note that the accumulator is reset to zero before the final save
in every successful run. -/
def process_withdraw_rate (st : Storage) (historical_time vault_balance : Nat) :
    Except LunaVaultError Storage :=
  let state := st.state
  let actual := accumulate_balance_change state.actual_unbonded_amount
    state.prev_vault_balance vault_balance
  let start := state.last_processed_batch + 1
  let fuel := st.histories.length + 1
  let scan := scan_batches st.histories historical_time start fuel 0 0
  let total_unbonded_amount := scan.1
  if scan.2 ≥ 1 then
    let slashed := SignedInt.fromSubtraction total_unbonded_amount actual
    match release_batches historical_time slashed total_unbonded_amount start fuel
        st.histories state.last_processed_batch with
    | Except.error e => Except.error e
    | Except.ok (hs2, last2) =>
      let state2 :=
        { state with actual_unbonded_amount := 0, last_processed_batch := last2 }
      Except.ok { st with histories := hs2, state := state2 }
  else
    Except.ok { st with state := { state with actual_unbonded_amount := 0 } }

/-! ## Withdrawal settlement (`commands.rs`, `execute_withdraw_unbonded`) -/

/-- Modelled from the spec: `get_finished_amount` from `state.rs` — "Sum all
`UnbondWaitEntry` amounts for the caller across every *released* batch at
the batch's finalized `withdraw_rate`" (§4.5 step 2). -/
def finished_amount_list (hs : List UnbondHistory) (sender : String) :
    List WaitEntry → Nat
  | [] => 0
  | e :: rest =>
    (if e.user == sender then
       match read_unbond_history hs e.batch with
       | some h => if h.released then mulDec e.amount h.withdraw_rate else 0
       | none => 0
     else 0) + finished_amount_list hs sender rest

/-- Modelled from the spec (§4.5 step 2): the caller's total withdrawable
amount. -/
def get_finished_amount (st : Storage) (sender : String) : Nat :=
  finished_amount_list st.histories sender st.waitList

/-- The released flag of a stored batch (`false` when the batch does not
exist). -/
def released_flag (hs : List UnbondHistory) (b : Nat) : Bool :=
  match read_unbond_history hs b with
  | some h => h.released
  | none => false

/-- Modelled from the spec: `get_unbond_batches` from `state.rs` — the
batches of the caller's wait entries that have been released (the entries
consumed by the withdrawal, §4.5 step 3). -/
def get_unbond_batches (st : Storage) (sender : String) : List Nat :=
  (st.waitList.filter
    (fun e => e.user == sender && released_flag st.histories e.batch)).map
    (fun e => e.batch)

/-- Modelled from the spec: `remove_unbond_wait_list` from `state.rs` —
"Delete the consumed entries" (§4.5 step 3): drops the caller's entries in
the given batches. -/
def remove_unbond_wait_list (st : Storage) (batches : List Nat) (sender : String) :
    Storage :=
  { st with waitList :=
      st.waitList.filter (fun e => ¬ (e.user == sender && batches.contains e.batch)) }

/-- `execute_withdraw_unbonded` (`commands.rs` lines 269–318).
`vault_balance` is the queried live balance in the underlying denomination;
returns the post-withdrawal storage and the payout amount. -/
def execute_withdraw_unbonded (st : Storage) (block_time unbonding_period vault_balance : Nat)
    (sender coin_denom : String) : Except LunaVaultError (Storage × Nat) :=
  let historical_time := block_time - unbonding_period
  match process_withdraw_rate st historical_time vault_balance with
  | Except.error e => Except.error e
  | Except.ok st1 =>
    let withdraw_amount := get_finished_amount st1 sender
    if withdraw_amount = 0 then
      Except.error (LunaVaultError.NoWithdrawableAssetsAvailable coin_denom)
    else
      let deprecated_batches := get_unbond_batches st1 sender
      let st2 := remove_unbond_wait_list st1 deprecated_batches sender
      match checked_sub vault_balance withdraw_amount with
      | Except.error e => Except.error e
      | Except.ok prev_balance =>
        let state2 := { st2.state with prev_vault_balance := prev_balance }
        Except.ok ({ st2 with state := state2 }, withdraw_amount)

/-! ## Theorems -/

/-- Fee configuration used by the concrete witnesses: 2% flash-loan fee,
zero treasury fee, 10% commission fee. -/
def demoFees : FeeConfig :=
  { flash_loan_fee := { share := { atomics := 20000000000000000 } },
    treasury_fee := { share := { atomics := 0 } },
    commission_fee := { share := { atomics := 100000000000000000 } },
    treasury_addr := "treasury" }

/-- C1: In the flash-loan after-trade settlement, when the recomputed total
vault valuation is below the stored `last_balance` plus the loan fee the
operation fails with the losing-trade error; otherwise it computes
`profit = valuation - last_balance`, stores it as `last_profit`, resets
`last_balance` to zero, and emits a commission transfer (the commission fee
applied to the profit) to the treasury; and the after-trade callback fails
whenever its sender is not the vault contract itself. -/
theorem after_trade_settlement_c1 :
    (∀ (profit : ProfitCheck) (valuation loan_fee : Nat) (fees : FeeConfig),
       valuation < profit.last_balance + loan_fee →
       after_trade profit valuation loan_fee fees =
         Except.error LunaVaultError.CancelLosingTrade)
  ∧ (∀ (profit : ProfitCheck) (valuation loan_fee : Nat) (fees : FeeConfig),
       profit.last_balance + loan_fee ≤ valuation →
       after_trade profit valuation loan_fee fees =
         Except.ok
           ({ last_balance := 0, last_profit := valuation - profit.last_balance },
            fees.commission_fee.compute (valuation - profit.last_balance),
            fees.treasury_addr))
  ∧ (∀ (sender contract_address : String) (msg : CallbackMsg) (profit : ProfitCheck)
       (valuation : Nat) (fees : FeeConfig),
       sender ≠ contract_address →
       handle_callback sender contract_address msg profit valuation fees =
         Except.error LunaVaultError.NotCallback) := by
  refine ⟨?_, ?_, ?_⟩
  · intro profit valuation loan_fee fees h
    simp [after_trade, h]
  · intro profit valuation loan_fee fees h
    simp [after_trade, send_commissions, Nat.not_lt.mpr h]
  · intro sender contract_address msg profit valuation fees h
    simp [handle_callback, h]

/-- Witness for C1: a losing trade (valuation 90 < 100 + 5) aborts; a winning
trade (valuation 150, last balance 100) yields profit 50, zeroes the
checkpoint and sends the 10% commission (5) to the treasury; a callback from
a stranger is rejected. -/
theorem after_trade_settlement_c1_witness :
    after_trade { last_balance := 100, last_profit := 0 } 90 5 demoFees =
        Except.error LunaVaultError.CancelLosingTrade
  ∧ after_trade { last_balance := 100, last_profit := 0 } 150 5 demoFees =
        Except.ok
          ({ last_balance := 0, last_profit := 150 - 100 },
           demoFees.commission_fee.compute (150 - 100), demoFees.treasury_addr)
  ∧ handle_callback "mallory" "vault" (CallbackMsg.AfterTrade 5)
        { last_balance := 100, last_profit := 0 } 150 demoFees =
        Except.error LunaVaultError.NotCallback :=
  ⟨after_trade_settlement_c1.1 { last_balance := 100, last_profit := 0 } 90 5 demoFees
     (by decide),
   after_trade_settlement_c1.2.1 { last_balance := 100, last_profit := 0 } 150 5 demoFees
     (by decide),
   after_trade_settlement_c1.2.2 "mallory" "vault" (CallbackMsg.AfterTrade 5)
     { last_balance := 100, last_profit := 0 } 150 demoFees (by decide)⟩

/-- C6: Whenever `ProfitCheckpoint.last_balance` is non-zero (a flash loan is
in flight), every deposit, every unbond request, and every new flash loan's
before-trade snapshot fails immediately; the error return models the abort
of the whole call, so no vault state is mutated while the flag is
non-zero. -/
theorem loan_in_flight_guard_c6 :
    ∀ (profit : ProfitCheck), profit.last_balance ≠ 0 →
      (∀ (denom_ok : Bool) (state : State) (params : Params) (batch : CurrentBatch)
         (total_supply deposit : Nat),
         provide_liquidity profit denom_ok state params batch total_supply deposit =
           Except.error LunaVaultError.DepositDuringLoan)
    ∧ (∀ (state : State) (params : Params) (fee_config : FeeConfig) (batch : CurrentBatch)
         (total_supply block_time amount : Nat),
         unbond profit state params fee_config batch total_supply block_time amount =
           Except.error LunaVaultError.DepositDuringLoan)
    ∧ (∀ (valuation : Nat),
         before_trade profit valuation = Except.error LunaVaultError.Nonzero) := by
  intro profit h
  refine ⟨?_, ?_, ?_⟩
  · intro denom_ok state params batch total_supply deposit
    simp [provide_liquidity, h]
  · intro state params fee_config batch total_supply block_time amount
    simp [unbond, h]
  · intro valuation
    simp [before_trade, h]

/-- Witness for C6: with `last_balance = 42` a deposit, an unbond and a new
before-trade snapshot all fail. -/
theorem loan_in_flight_guard_c6_witness :
    provide_liquidity { last_balance := 42, last_profit := 0 } true
        { total_bond_amount := 0, exchange_rate := Dec.one, last_unbonded_time := 0,
          prev_vault_balance := 0, actual_unbonded_amount := 0, last_processed_batch := 0,
          allow_non_whitelisted := false, whitelisted_contracts := [] }
        { epoch_period := 10, unbonding_period := 10, peg_recovery_fee := Dec.one,
          er_threshold := Dec.one }
        { id := 1, requested_with_fee := 0 } 100 10 =
        Except.error LunaVaultError.DepositDuringLoan
  ∧ unbond { last_balance := 42, last_profit := 0 }
        { total_bond_amount := 0, exchange_rate := Dec.one, last_unbonded_time := 0,
          prev_vault_balance := 0, actual_unbonded_amount := 0, last_processed_batch := 0,
          allow_non_whitelisted := false, whitelisted_contracts := [] }
        { epoch_period := 10, unbonding_period := 10, peg_recovery_fee := Dec.one,
          er_threshold := Dec.one }
        demoFees { id := 1, requested_with_fee := 0 } 100 50 10 =
        Except.error LunaVaultError.DepositDuringLoan
  ∧ before_trade { last_balance := 42, last_profit := 0 } 1000 =
        Except.error LunaVaultError.Nonzero :=
  ⟨(loan_in_flight_guard_c6 { last_balance := 42, last_profit := 0 } (by decide)).1
     true _ _ _ 100 10,
   (loan_in_flight_guard_c6 { last_balance := 42, last_profit := 0 } (by decide)).2.1
     _ _ demoFees _ 100 50 10,
   (loan_in_flight_guard_c6 { last_balance := 42, last_profit := 0 } (by decide)).2.2 1000⟩

/-- C7 counterexample: the claim says the insufficient-funds failure happens
when the available value is below the requested amount plus a tax buffer
sized for two transfers (`2 * tax`).  With a whitelisted caller, zero tax,
request 100 and available value 105, the claimed condition does not hold
(`100 + 2 * 0 ≤ 105`), yet the code fails with `Broke`, because its buffer
additionally contains `ROUNDING_ERR_COMPENSATION = 10` units. -/
theorem flashloan_eligibility_c7_counterexample :
    handle_flashloan ["whitelisted"] false true demoFees
        { last_balance := 0, last_profit := 0 } "whitelisted" 105 100 0 500 =
      Except.error LunaVaultError.Broke
  ∧ 100 + 2 * 0 ≤ 105 := by
  constructor
  · rfl
  · decide

/-- C7 (amended): a flash-loan request fails with `NotWhitelisted` when the
caller is not whitelisted and non-whitelisted borrowing is not permitted; it
fails with `Broke` when the vault's total value is less than the requested
amount plus the tax buffer `2 * tax + ROUNDING_ERR_COMPENSATION` (two
transfers of the borrowed asset plus a ten-unit rounding compensation); the
loan fee is zero for a whitelisted caller and otherwise the configured
flash-loan fee rate applied to the borrowed amount. -/
theorem flashloan_eligibility_c7 :
    (∀ (wl : List String) (allow : Bool) (fees : FeeConfig) (profit : ProfitCheck)
       (sender : String) (total_value requested_amount tax valuation : Nat),
       sender ∉ wl → allow = false →
       handle_flashloan wl allow true fees profit sender
           total_value requested_amount tax valuation =
         Except.error LunaVaultError.NotWhitelisted)
  ∧ (∀ (wl : List String) (allow : Bool) (fees : FeeConfig) (profit : ProfitCheck)
       (sender : String) (total_value requested_amount tax valuation : Nat),
       (sender ∈ wl ∨ allow = true) →
       total_value < requested_amount + (2 * tax + ROUNDING_ERR_COMPENSATION) →
       handle_flashloan wl allow true fees profit sender
           total_value requested_amount tax valuation =
         Except.error LunaVaultError.Broke)
  ∧ (∀ (wl : List String) (allow : Bool) (fees : FeeConfig) (profit : ProfitCheck)
       (sender : String) (total_value requested_amount tax valuation : Nat),
       sender ∈ wl →
       ¬ total_value < requested_amount + (2 * tax + ROUNDING_ERR_COMPENSATION) →
       profit.last_balance = 0 →
       handle_flashloan wl allow true fees profit sender
           total_value requested_amount tax valuation =
         Except.ok (0, { last_balance := valuation, last_profit := 0 }))
  ∧ (∀ (wl : List String) (allow : Bool) (fees : FeeConfig) (profit : ProfitCheck)
       (sender : String) (total_value requested_amount tax valuation : Nat),
       sender ∉ wl → allow = true →
       ¬ total_value < requested_amount + (2 * tax + ROUNDING_ERR_COMPENSATION) →
       profit.last_balance = 0 →
       handle_flashloan wl allow true fees profit sender
           total_value requested_amount tax valuation =
         Except.ok (fees.flash_loan_fee.compute requested_amount,
                    { last_balance := valuation, last_profit := 0 })) := by
  refine ⟨?_, ?_, ?_, ?_⟩
  · intro wl allow fees profit sender tv ra tax val hwl hallow
    simp [handle_flashloan, hwl, hallow]
  · intro wl allow fees profit sender tv ra tax val helig hfunds
    rcases helig with h | h <;> simp [handle_flashloan, h, hfunds]
    by_cases hm : sender ∈ wl <;> simp [hm]
  · intro wl allow fees profit sender tv ra tax val hwl hfunds hlb
    simp [handle_flashloan, hwl, hfunds, before_trade, hlb]
  · intro wl allow fees profit sender tv ra tax val hwl hallow hfunds hlb
    simp [handle_flashloan, hwl, hallow, hfunds, before_trade, hlb]

/-- Witness for C7: a non-whitelisted caller without permission is rejected;
an underfunded request fails with `Broke`; a whitelisted caller borrows at
fee 0; a permitted non-whitelisted caller pays the 2% fee (2 on 100). -/
theorem flashloan_eligibility_c7_witness :
    handle_flashloan ["w"] false true demoFees { last_balance := 0, last_profit := 0 }
        "eve" 1000 100 0 500 = Except.error LunaVaultError.NotWhitelisted
  ∧ handle_flashloan ["w"] false true demoFees { last_balance := 0, last_profit := 0 }
        "w" 100 100 0 500 = Except.error LunaVaultError.Broke
  ∧ handle_flashloan ["w"] false true demoFees { last_balance := 0, last_profit := 0 }
        "w" 1000 100 0 500 =
      Except.ok (0, { last_balance := 500, last_profit := 0 })
  ∧ handle_flashloan ["w"] true true demoFees { last_balance := 0, last_profit := 0 }
        "eve" 1000 100 0 500 =
      Except.ok (demoFees.flash_loan_fee.compute 100,
                 { last_balance := 500, last_profit := 0 }) :=
  ⟨flashloan_eligibility_c7.1 ["w"] false demoFees
     { last_balance := 0, last_profit := 0 } "eve" 1000 100 0 500 (by decide) rfl,
   flashloan_eligibility_c7.2.1 ["w"] false demoFees
     { last_balance := 0, last_profit := 0 } "w" 100 100 0 500
     (Or.inl (by decide)) (by decide),
   flashloan_eligibility_c7.2.2.1 ["w"] false demoFees
     { last_balance := 0, last_profit := 0 } "w" 1000 100 0 500
     (by decide) (by decide) rfl,
   flashloan_eligibility_c7.2.2.2 ["w"] true demoFees
     { last_balance := 0, last_profit := 0 } "eve" 1000 100 0 500
     (by decide) rfl (by decide) rfl⟩

/-- Follows the claim's words (C4): the balance change
`live_vault_balance - prev_vault_balance` added to the accumulator *with its
sign*.  Used only for comparison with `accumulate_balance_change`, which the
source (`commands.rs` line 333) implements as `+= balance_change.0`, i.e.
adding the magnitude. -/
def accumulate_balance_change_signed (actual prev_vault_balance vault_balance : Nat) : Int :=
  (actual : Int) + ((vault_balance : Int) - (prev_vault_balance : Int))

/-- C4 counterexample: with accumulator 7, previous balance 10 and live
balance 5, the code adds the absolute value of the change (5), producing 12,
whereas the claimed signed addition would produce 2. -/
theorem balance_change_accumulation_c4_counterexample :
    accumulate_balance_change 7 10 5 = 12
  ∧ accumulate_balance_change_signed 7 10 5 = 2
  ∧ ((accumulate_balance_change 7 10 5 : Nat) : Int) ≠
      accumulate_balance_change_signed 7 10 5 := by
  refine ⟨rfl, rfl, by decide⟩

/-- C4 (amended): at the start of every reconciliation run the code adds the
*magnitude* `|live_vault_balance - prev_vault_balance|` of the balance change
to the running `actual_unbonded_amount` accumulator, regardless of sign; in
particular a live balance below the previous balance contributes its
absolute value, not a negative amount. -/
theorem balance_change_accumulation_c4 :
    ∀ (actual prev_vault_balance vault_balance : Nat),
      accumulate_balance_change actual prev_vault_balance vault_balance =
        actual + ((vault_balance : Int) - (prev_vault_balance : Int)).natAbs := by
  intro actual prev_vault_balance vault_balance
  unfold accumulate_balance_change SignedInt.fromSubtraction
  split <;> simp <;> omega

/-- C5 counterexample: deposit 100 at exchange rate 0.5 (below the threshold
1.0) mints 200 raw; with `total_supply = 0`, `requested_with_fee = 0` and
`total_bond_amount = 150` the structural difference
`(0 + 200 + 0) - (150 + 100)` is negative, so the claim says the fee is zero
and the deposit succeeds — but the code's `checked_sub(..)?` makes the whole
deposit fail with an arithmetic error. -/
theorem deposit_peg_fee_c5_counterexample :
    provide_liquidity { last_balance := 0, last_profit := 0 } true
        { total_bond_amount := 150, exchange_rate := { atomics := 500000000000000000 },
          last_unbonded_time := 0, prev_vault_balance := 0, actual_unbonded_amount := 0,
          last_processed_batch := 0, allow_non_whitelisted := false,
          whitelisted_contracts := [] }
        { epoch_period := 10, unbonding_period := 10,
          peg_recovery_fee := { atomics := 10000000000000000 }, er_threshold := Dec.one }
        { id := 1, requested_with_fee := 0 } 0 100 =
      Except.error LunaVaultError.Overflow
  ∧ (500000000000000000 : Nat) < Dec.one.atomics
  ∧ 0 + decimal_division 100 { atomics := 500000000000000000 } + 0 < 150 + 100 := by
  refine ⟨rfl, by decide, by decide⟩

/-- C5 (amended): while `exchange_rate < er_threshold`, when the difference
`(total_supply + raw_mint + requested_with_fee) - (total_bond_amount +
deposit)` is non-negative the peg-recovery fee equals the minimum of that
difference and `raw_mint * peg_recovery_fee`, and the minted amount is
`raw_mint`, minus that fee; when the difference is negative the deposit fails
with an arithmetic underflow error (a checked, not saturating, subtraction).
When `exchange_rate >= er_threshold`, the minted amount equals `raw_mint`.
Consequently every successful deposit mints at most `raw_mint`. -/
theorem deposit_peg_fee_c5 :
    (∀ (profit : ProfitCheck) (state : State) (params : Params) (batch : CurrentBatch)
       (total_supply deposit : Nat),
       profit.last_balance = 0 →
       state.exchange_rate.atomics < params.er_threshold.atomics →
       state.total_bond_amount + deposit ≤
         total_supply + decimal_division deposit state.exchange_rate +
           batch.requested_with_fee →
       min (mulDec (decimal_division deposit state.exchange_rate) params.peg_recovery_fee)
           (total_supply + decimal_division deposit state.exchange_rate +
             batch.requested_with_fee - (state.total_bond_amount + deposit)) ≤
         decimal_division deposit state.exchange_rate →
       provide_liquidity profit true state params batch total_supply deposit =
         Except.ok
           (State.update_exchange_rate
              { state with total_bond_amount := state.total_bond_amount + deposit }
              (total_supply + (decimal_division deposit state.exchange_rate -
                min (mulDec (decimal_division deposit state.exchange_rate)
                      params.peg_recovery_fee)
                    (total_supply + decimal_division deposit state.exchange_rate +
                      batch.requested_with_fee - (state.total_bond_amount + deposit))))
              batch.requested_with_fee,
            decimal_division deposit state.exchange_rate -
              min (mulDec (decimal_division deposit state.exchange_rate)
                    params.peg_recovery_fee)
                  (total_supply + decimal_division deposit state.exchange_rate +
                    batch.requested_with_fee - (state.total_bond_amount + deposit))))
  ∧ (∀ (profit : ProfitCheck) (state : State) (params : Params) (batch : CurrentBatch)
       (total_supply deposit : Nat),
       profit.last_balance = 0 →
       state.exchange_rate.atomics < params.er_threshold.atomics →
       total_supply + decimal_division deposit state.exchange_rate +
           batch.requested_with_fee < state.total_bond_amount + deposit →
       provide_liquidity profit true state params batch total_supply deposit =
         Except.error LunaVaultError.Overflow)
  ∧ (∀ (profit : ProfitCheck) (state : State) (params : Params) (batch : CurrentBatch)
       (total_supply deposit : Nat),
       profit.last_balance = 0 →
       ¬ state.exchange_rate.atomics < params.er_threshold.atomics →
       provide_liquidity profit true state params batch total_supply deposit =
         Except.ok
           (State.update_exchange_rate
              { state with total_bond_amount := state.total_bond_amount + deposit }
              (total_supply + decimal_division deposit state.exchange_rate)
              batch.requested_with_fee,
            decimal_division deposit state.exchange_rate))
  ∧ (∀ (profit : ProfitCheck) (denom_ok : Bool) (state : State) (params : Params)
       (batch : CurrentBatch) (total_supply deposit : Nat) (state2 : State) (minted : Nat),
       provide_liquidity profit denom_ok state params batch total_supply deposit =
         Except.ok (state2, minted) →
       minted ≤ decimal_division deposit state.exchange_rate) := by
  refine ⟨?_, ?_, ?_, ?_⟩
  · intro profit state params batch total_supply deposit hlb hlt hnonneg hfee
    simp only [provide_liquidity, hlb, ne_eq, not_true_eq_false, if_false,
      Bool.not_true, ite_true, if_pos hlt, checked_sub, if_pos hnonneg, if_pos hfee]
  · intro profit state params batch total_supply deposit hlb hlt hneg
    simp only [provide_liquidity, hlb, ne_eq, not_true_eq_false, if_false,
      Bool.not_true, ite_true, if_pos hlt, checked_sub, if_neg (by omega :
        ¬ state.total_bond_amount + deposit ≤
          total_supply + decimal_division deposit state.exchange_rate +
            batch.requested_with_fee)]
  · intro profit state params batch total_supply deposit hlb hge
    simp only [provide_liquidity, hlb, ne_eq, not_true_eq_false, if_false,
      Bool.not_true, ite_true, if_neg hge]
  · intro profit denom_ok state params batch total_supply deposit state2 minted hm
    by_cases hlb : profit.last_balance ≠ 0
    · simp [provide_liquidity, hlb] at hm
    · by_cases hd : denom_ok
      · by_cases hlt : state.exchange_rate.atomics < params.er_threshold.atomics
        · by_cases hnn : state.total_bond_amount + deposit ≤
              total_supply + decimal_division deposit state.exchange_rate +
                batch.requested_with_fee
          · by_cases hfee :
                min (mulDec (decimal_division deposit state.exchange_rate)
                      params.peg_recovery_fee)
                    (total_supply + decimal_division deposit state.exchange_rate +
                      batch.requested_with_fee - (state.total_bond_amount + deposit)) ≤
                  decimal_division deposit state.exchange_rate
            · simp [provide_liquidity, hlb, hd, hlt, checked_sub, hnn, hfee] at hm
              omega
            · simp [provide_liquidity, hlb, hd, hlt, checked_sub, hnn, hfee] at hm
          · simp [provide_liquidity, hlb, hd, hlt, checked_sub, hnn] at hm
        · simp [provide_liquidity, hlb, hd, hlt] at hm
          omega
      · simp [provide_liquidity, hlb, hd] at hm

/-- Witness for C5: deposit 100 at rate 0.5 (mint 200) below threshold with
supply 500 and bonded 100 pays `min(200 * 1%, 500) = 2` peg fee, minting 198;
the negative-difference input fails; a deposit at rate 1.0 (not below the
threshold) mints the raw amount 50; and that successful deposit mints no more
than the raw mint. -/
theorem deposit_peg_fee_c5_witness :
    provide_liquidity { last_balance := 0, last_profit := 0 } true
        { total_bond_amount := 100, exchange_rate := { atomics := 500000000000000000 },
          last_unbonded_time := 0, prev_vault_balance := 0, actual_unbonded_amount := 0,
          last_processed_batch := 0, allow_non_whitelisted := false,
          whitelisted_contracts := [] }
        { epoch_period := 10, unbonding_period := 10,
          peg_recovery_fee := { atomics := 10000000000000000 }, er_threshold := Dec.one }
        { id := 1, requested_with_fee := 0 } 500 100 =
      Except.ok
        ({ total_bond_amount := 200, exchange_rate := { atomics := 286532951289398280 },
           last_unbonded_time := 0, prev_vault_balance := 0, actual_unbonded_amount := 0,
           last_processed_batch := 0, allow_non_whitelisted := false,
           whitelisted_contracts := [] }, 198)
  ∧ provide_liquidity { last_balance := 0, last_profit := 0 } true
        { total_bond_amount := 150, exchange_rate := { atomics := 500000000000000000 },
          last_unbonded_time := 0, prev_vault_balance := 0, actual_unbonded_amount := 0,
          last_processed_batch := 0, allow_non_whitelisted := false,
          whitelisted_contracts := [] }
        { epoch_period := 10, unbonding_period := 10,
          peg_recovery_fee := { atomics := 10000000000000000 }, er_threshold := Dec.one }
        { id := 1, requested_with_fee := 0 } 0 100 =
      Except.error LunaVaultError.Overflow
  ∧ provide_liquidity { last_balance := 0, last_profit := 0 } true
        { total_bond_amount := 100, exchange_rate := Dec.one,
          last_unbonded_time := 0, prev_vault_balance := 0, actual_unbonded_amount := 0,
          last_processed_batch := 0, allow_non_whitelisted := false,
          whitelisted_contracts := [] }
        { epoch_period := 10, unbonding_period := 10,
          peg_recovery_fee := { atomics := 10000000000000000 }, er_threshold := Dec.one }
        { id := 1, requested_with_fee := 0 } 100 50 =
      Except.ok
        ({ total_bond_amount := 150, exchange_rate := { atomics := 1000000000000000000 },
           last_unbonded_time := 0, prev_vault_balance := 0, actual_unbonded_amount := 0,
           last_processed_batch := 0, allow_non_whitelisted := false,
           whitelisted_contracts := [] }, 50)
  ∧ 50 ≤ decimal_division 50 Dec.one := by
  refine ⟨?_, ?_, ?_, ?_⟩
  · exact ((deposit_peg_fee_c5.1 { last_balance := 0, last_profit := 0 }
      { total_bond_amount := 100, exchange_rate := { atomics := 500000000000000000 },
        last_unbonded_time := 0, prev_vault_balance := 0, actual_unbonded_amount := 0,
        last_processed_batch := 0, allow_non_whitelisted := false,
        whitelisted_contracts := [] }
      { epoch_period := 10, unbonding_period := 10,
        peg_recovery_fee := { atomics := 10000000000000000 }, er_threshold := Dec.one }
      { id := 1, requested_with_fee := 0 } 500 100 rfl (by decide) (by decide)
      (by decide)).trans (by rfl))
  · exact deposit_peg_fee_c5.2.1 { last_balance := 0, last_profit := 0 }
      { total_bond_amount := 150, exchange_rate := { atomics := 500000000000000000 },
        last_unbonded_time := 0, prev_vault_balance := 0, actual_unbonded_amount := 0,
        last_processed_batch := 0, allow_non_whitelisted := false,
        whitelisted_contracts := [] }
      { epoch_period := 10, unbonding_period := 10,
        peg_recovery_fee := { atomics := 10000000000000000 }, er_threshold := Dec.one }
      { id := 1, requested_with_fee := 0 } 0 100 rfl (by decide) (by decide)
  · exact ((deposit_peg_fee_c5.2.2.1 { last_balance := 0, last_profit := 0 }
      { total_bond_amount := 100, exchange_rate := Dec.one,
        last_unbonded_time := 0, prev_vault_balance := 0, actual_unbonded_amount := 0,
        last_processed_batch := 0, allow_non_whitelisted := false,
        whitelisted_contracts := [] }
      { epoch_period := 10, unbonding_period := 10,
        peg_recovery_fee := { atomics := 10000000000000000 }, er_threshold := Dec.one }
      { id := 1, requested_with_fee := 0 } 100 50 rfl (by decide)).trans (by rfl))
  · exact deposit_peg_fee_c5.2.2.2 { last_balance := 0, last_profit := 0 } true
      { total_bond_amount := 100, exchange_rate := Dec.one,
        last_unbonded_time := 0, prev_vault_balance := 0, actual_unbonded_amount := 0,
        last_processed_batch := 0, allow_non_whitelisted := false,
        whitelisted_contracts := [] }
      { epoch_period := 10, unbonding_period := 10,
        peg_recovery_fee := { atomics := 10000000000000000 }, er_threshold := Dec.one }
      { id := 1, requested_with_fee := 0 } 100 50
      { total_bond_amount := 150, exchange_rate := { atomics := 1000000000000000000 },
        last_unbonded_time := 0, prev_vault_balance := 0, actual_unbonded_amount := 0,
        last_processed_batch := 0, allow_non_whitelisted := false,
        whitelisted_contracts := [] } 50 (by rfl)

/-- C8: During an unbond request whose elapsed time triggers epoch rollover,
if the undelegation amount `requested_with_fee * exchange_rate` equals
exactly 1 unit, the whole unbond operation fails with `TooSmallBurn`: the
`Except.error` result carries no state, so no `UnbondHistory` is frozen, the
batch id is not advanced, and nothing is persisted. -/
theorem unbond_degenerate_c8 :
    ∀ (profit : ProfitCheck) (state : State) (params : Params) (fee_config : FeeConfig)
      (current_batch : CurrentBatch) (total_supply block_time amount awf : Nat),
      profit.last_balance = 0 →
      unbond_amount_with_fee state params fee_config current_batch total_supply amount =
        Except.ok awf →
      amount ≤ total_supply →
      block_time -
          (state.update_exchange_rate (total_supply - amount)
            (current_batch.requested_with_fee + awf)).last_unbonded_time >
        params.epoch_period →
      mulDec (current_batch.requested_with_fee + awf)
          ((state.update_exchange_rate (total_supply - amount)
            (current_batch.requested_with_fee + awf)).exchange_rate) = 1 →
      unbond profit state params fee_config current_batch total_supply block_time amount =
        Except.error LunaVaultError.TooSmallBurn := by
  intro profit state params fee_config current_batch total_supply block_time amount awf
  intro hlb hawf hsup helapsed hone
  simp only [unbond, hlb, ne_eq, not_true_eq_false, if_false, hawf, checked_sub,
    if_pos hsup, if_pos helapsed, hone, ite_true]

/-- Witness for C8: bonded 10, supply 10, rate 1.0, no fees, batch request 0;
unbonding 1 token after the epoch period gives `requested_with_fee = 1` and
a recomputed rate of 1.0, so the undelegation amount is exactly 1, and the
operation fails with `TooSmallBurn`. -/
theorem unbond_degenerate_c8_witness :
    unbond { last_balance := 0, last_profit := 0 }
        { total_bond_amount := 10, exchange_rate := Dec.one, last_unbonded_time := 0,
          prev_vault_balance := 0, actual_unbonded_amount := 0, last_processed_batch := 0,
          allow_non_whitelisted := false, whitelisted_contracts := [] }
        { epoch_period := 10, unbonding_period := 10, peg_recovery_fee := { atomics := 0 },
          er_threshold := Dec.one }
        { flash_loan_fee := { share := { atomics := 0 } },
          treasury_fee := { share := { atomics := 0 } },
          commission_fee := { share := { atomics := 0 } }, treasury_addr := "treasury" }
        { id := 7, requested_with_fee := 0 } 10 100 1 =
      Except.error LunaVaultError.TooSmallBurn :=
  unbond_degenerate_c8 { last_balance := 0, last_profit := 0 }
    { total_bond_amount := 10, exchange_rate := Dec.one, last_unbonded_time := 0,
      prev_vault_balance := 0, actual_unbonded_amount := 0, last_processed_batch := 0,
      allow_non_whitelisted := false, whitelisted_contracts := [] }
    { epoch_period := 10, unbonding_period := 10, peg_recovery_fee := { atomics := 0 },
      er_threshold := Dec.one }
    { flash_loan_fee := { share := { atomics := 0 } },
      treasury_fee := { share := { atomics := 0 } },
      commission_fee := { share := { atomics := 0 } }, treasury_addr := "treasury" }
    { id := 7, requested_with_fee := 0 } 10 100 1 1 rfl (by rfl) (by decide)
    (by decide) (by rfl)

/-- An `Except.ok` storage result, for stating concrete reconciler runs. -/
def okStorage : Except LunaVaultError Storage → Option Storage
  | Except.ok st => some st
  | Except.error _ => none

/-- Follows the claim's words (C2): identical to `batch_adjust` except that
in the non-negative non-zero case the incremented share is subtracted
*saturating* (floored at zero) from the batch's unbonded amount.  The source
instead takes `SignedInt::from_subtraction(..).0`, the absolute
difference. -/
def batch_adjust_saturating (slashed : SignedInt) (total_unbonded_amount : Nat)
    (h : UnbondHistory) : Except LunaVaultError Dec :=
  let unbonded_amount_of_batch := mulDec h.amount h.withdraw_rate
  let batch_slashing_weight := Dec.from_ratio unbonded_amount_of_batch total_unbonded_amount
  let slashed_amount_of_batch := mulDec slashed.mag batch_slashing_weight
  if slashed.neg then
    match checked_sub slashed_amount_of_batch 1 with
    | Except.error e => Except.error e
    | Except.ok s =>
      Except.ok (Dec.from_ratio (unbonded_amount_of_batch + s) h.amount)
  else
    let s := if slashed.mag ≠ 0 then slashed_amount_of_batch + 1 else slashed_amount_of_batch
    Except.ok (Dec.from_ratio (unbonded_amount_of_batch - s) h.amount)

/-- Reconciliation input refuting the saturating-subtraction reading of C2:
two unreleased batches of burnt amounts 1 and 9 at provisional rate 1.0, no
balance change (previous and live balance are both 100), so the whole
expected total of 10 counts as a (non-negative) slash. -/
def absSubScenario : Storage :=
  { state := { total_bond_amount := 0, exchange_rate := Dec.one, last_unbonded_time := 0,
               prev_vault_balance := 100, actual_unbonded_amount := 0,
               last_processed_batch := 0, allow_non_whitelisted := false,
               whitelisted_contracts := [] },
    histories := [ { batch_id := 1, time := 10, amount := 1,
                     applied_exchange_rate := Dec.one, withdraw_rate := Dec.one,
                     released := false },
                   { batch_id := 2, time := 10, amount := 9,
                     applied_exchange_rate := Dec.one, withdraw_rate := Dec.one,
                     released := false } ],
    waitList := [] }

/-- C2 counterexample: in `absSubScenario` batch 1 has unbonded amount 1 and
slash share `1 + 1 = 2 > 1`.  The claimed saturating subtraction would leave
adjusted amount 0 and withdraw rate 0/1; the code's
`SignedInt::from_subtraction(1, 2).0 = 1` leaves withdraw rate 1/1, so the
batch loses nothing despite the 100% slash. -/
theorem batch_slash_adjust_c2_counterexample :
    ((okStorage (process_withdraw_rate absSubScenario 1000 100)).bind
        (fun st => read_unbond_history st.histories 1)).map UnbondHistory.withdraw_rate
      = some (Dec.from_ratio 1 1)
  ∧ batch_adjust (SignedInt.fromSubtraction 10 0) 10
      { batch_id := 1, time := 10, amount := 1, applied_exchange_rate := Dec.one,
        withdraw_rate := Dec.one, released := false } =
      Except.ok (Dec.from_ratio 1 1)
  ∧ batch_adjust_saturating (SignedInt.fromSubtraction 10 0) 10
      { batch_id := 1, time := 10, amount := 1, applied_exchange_rate := Dec.one,
        withdraw_rate := Dec.one, released := false } =
      Except.ok (Dec.from_ratio 0 1)
  ∧ Dec.from_ratio 1 1 ≠ Dec.from_ratio 0 1 := by
  refine ⟨by rfl, by rfl, by rfl, by decide⟩

/-- C2 (amended): for every qualifying unreleased batch, with
`share = weight * |slash|` the batch's proportional portion: if the overall
slash is negative, `share` is reduced by one unit through a *checked*
subtraction (an arithmetic error aborting the run when `share = 0`) and
added to the batch's unbonded amount; if the slash is non-negative and
non-zero, `share + 1` is subtracted from the batch's unbonded amount through
`SignedInt::from_subtraction(..).0`, i.e. the *absolute difference* (equal
to the saturating difference except on underflow); the new `withdraw_rate`
is the ratio of the adjusted amount to the burnt amount, and the release
loop stores the batch marked released. -/
theorem batch_slash_adjust_c2 :
    (∀ (slashed : SignedInt) (total : Nat) (h : UnbondHistory),
       slashed.neg = true →
       1 ≤ mulDec slashed.mag (Dec.from_ratio (mulDec h.amount h.withdraw_rate) total) →
       batch_adjust slashed total h =
         Except.ok (Dec.from_ratio
           (mulDec h.amount h.withdraw_rate +
             (mulDec slashed.mag
               (Dec.from_ratio (mulDec h.amount h.withdraw_rate) total) - 1))
           h.amount))
  ∧ (∀ (slashed : SignedInt) (total : Nat) (h : UnbondHistory),
       slashed.neg = true →
       mulDec slashed.mag (Dec.from_ratio (mulDec h.amount h.withdraw_rate) total) = 0 →
       batch_adjust slashed total h = Except.error LunaVaultError.Overflow)
  ∧ (∀ (slashed : SignedInt) (total : Nat) (h : UnbondHistory),
       slashed.neg = false → slashed.mag ≠ 0 →
       batch_adjust slashed total h =
         Except.ok (Dec.from_ratio
           (SignedInt.fromSubtraction (mulDec h.amount h.withdraw_rate)
             (mulDec slashed.mag
               (Dec.from_ratio (mulDec h.amount h.withdraw_rate) total) + 1)).mag
           h.amount))
  ∧ (∀ (historical_time : Nat) (slashed : SignedInt) (total i fuel : Nat)
       (hs : List UnbondHistory) (last : Nat) (h : UnbondHistory) (r : Dec),
       read_unbond_history hs i = some h → ¬ h.time > historical_time →
       h.released = false → batch_adjust slashed total h = Except.ok r →
       release_batches historical_time slashed total i (fuel + 1) hs last =
         release_batches historical_time slashed total (i + 1) fuel
           (store_unbond_history hs i
             { h with withdraw_rate := r, released := true }) i) := by
  refine ⟨?_, ?_, ?_, ?_⟩
  · intro slashed total h hneg hge
    simp only [batch_adjust, hneg, checked_sub, if_pos hge, ite_true]
  · intro slashed total h hneg hzero
    simp only [batch_adjust, hneg, checked_sub, hzero, ite_true]
    rfl
  · intro slashed total h hneg hmag
    simp only [batch_adjust, hneg, hmag, ne_eq, not_false_eq_true, ite_true,
      Bool.false_eq_true, if_false]
  · intro historical_time slashed total i fuel hs last h r hread htime hrel hadj
    simp only [release_batches, hread, htime, hrel, hadj, ite_false,
      Bool.false_eq_true, if_false]

/-- Witness for C2: the negative-slash branch with share 5 adds 4 to the
batch's unbonded amount 10; the negative-slash branch with share 0 aborts;
the loss branch with share 10 on a batch of 100 out of 400 subtracts 11; and
one release step stores the adjusted batch as released. -/
theorem batch_slash_adjust_c2_witness :
    batch_adjust { mag := 5, neg := true } 10
        { batch_id := 1, time := 0, amount := 10, applied_exchange_rate := Dec.one,
          withdraw_rate := Dec.one, released := false } =
      Except.ok (Dec.from_ratio
        (mulDec 10 Dec.one +
          (mulDec 5 (Dec.from_ratio (mulDec 10 Dec.one) 10) - 1)) 10)
  ∧ batch_adjust { mag := 1, neg := true } 1000
        { batch_id := 1, time := 0, amount := 1, applied_exchange_rate := Dec.one,
          withdraw_rate := Dec.one, released := false } =
      Except.error LunaVaultError.Overflow
  ∧ batch_adjust { mag := 40, neg := false } 400
        { batch_id := 1, time := 0, amount := 100, applied_exchange_rate := Dec.one,
          withdraw_rate := Dec.one, released := false } =
      Except.ok (Dec.from_ratio
        (SignedInt.fromSubtraction (mulDec 100 Dec.one)
          (mulDec 40 (Dec.from_ratio (mulDec 100 Dec.one) 400) + 1)).mag 100)
  ∧ release_batches 1000 { mag := 40, neg := false } 400 1 1
        [ { batch_id := 1, time := 10, amount := 100, applied_exchange_rate := Dec.one,
            withdraw_rate := Dec.one, released := false } ] 0 =
      release_batches 1000 { mag := 40, neg := false } 400 2 0
        (store_unbond_history
          [ { batch_id := 1, time := 10, amount := 100,
              applied_exchange_rate := Dec.one, withdraw_rate := Dec.one,
              released := false } ] 1
          { batch_id := 1, time := 10, amount := 100, applied_exchange_rate := Dec.one,
            withdraw_rate := Dec.from_ratio 89 100, released := true }) 1 :=
  ⟨batch_slash_adjust_c2.1 { mag := 5, neg := true } 10
     { batch_id := 1, time := 0, amount := 10, applied_exchange_rate := Dec.one,
       withdraw_rate := Dec.one, released := false } rfl (by decide),
   batch_slash_adjust_c2.2.1 { mag := 1, neg := true } 1000
     { batch_id := 1, time := 0, amount := 1, applied_exchange_rate := Dec.one,
       withdraw_rate := Dec.one, released := false } rfl (by rfl),
   batch_slash_adjust_c2.2.2.1 { mag := 40, neg := false } 400
     { batch_id := 1, time := 0, amount := 100, applied_exchange_rate := Dec.one,
       withdraw_rate := Dec.one, released := false } rfl (by decide),
   batch_slash_adjust_c2.2.2.2 1000 { mag := 40, neg := false } 400 1 0
     [ { batch_id := 1, time := 10, amount := 100, applied_exchange_rate := Dec.one,
         withdraw_rate := Dec.one, released := false } ] 0
     { batch_id := 1, time := 10, amount := 100, applied_exchange_rate := Dec.one,
       withdraw_rate := Dec.one, released := false }
     (Dec.from_ratio 89 100) rfl (by decide) rfl (by rfl)⟩

/-- The concrete reconciliation scenario of C3: two unreleased batches of
burnt amounts 100 and 300 at provisional rate 1.0 (expected unbonded total
400); previous balance 0 and live balance 360, a 40-unit shortfall. -/
def reconcileScenario : Storage :=
  { state := { total_bond_amount := 0, exchange_rate := Dec.one, last_unbonded_time := 0,
               prev_vault_balance := 0, actual_unbonded_amount := 0,
               last_processed_batch := 0, allow_non_whitelisted := false,
               whitelisted_contracts := [] },
    histories := [ { batch_id := 1, time := 10, amount := 100,
                     applied_exchange_rate := Dec.one, withdraw_rate := Dec.one,
                     released := false },
                   { batch_id := 2, time := 20, amount := 300,
                     applied_exchange_rate := Dec.one, withdraw_rate := Dec.one,
                     released := false } ],
    waitList := [] }

/-- C3 counterexample: on the claimed scenario the reconciler finalizes
withdraw rates 89/100 and 269/300, i.e. it assigns losses of 11 and 31 units
to the two batches (the +1-unit rounding is applied on top of the
proportional shares: the adjusted unbonded amounts are 89 and 269 out of 100
and 300) — not "exactly 10 and 30" as claimed. -/
theorem reconcile_scenario_c3_counterexample :
    ((okStorage (process_withdraw_rate reconcileScenario 1000 360)).bind
        (fun st => read_unbond_history st.histories 1)).map UnbondHistory.withdraw_rate
      = some (Dec.from_ratio 89 100)
  ∧ ((okStorage (process_withdraw_rate reconcileScenario 1000 360)).bind
        (fun st => read_unbond_history st.histories 2)).map UnbondHistory.withdraw_rate
      = some (Dec.from_ratio 269 300)
  ∧ (SignedInt.fromSubtraction (mulDec 100 Dec.one)
       (mulDec 40 (Dec.from_ratio (mulDec 100 Dec.one) 400) + 1)).mag = 89
  ∧ (SignedInt.fromSubtraction (mulDec 300 Dec.one)
       (mulDec 40 (Dec.from_ratio (mulDec 300 Dec.one) 400) + 1)).mag = 269
  ∧ ¬ mulDec 100 Dec.one - 89 = 10
  ∧ ¬ mulDec 300 Dec.one - 269 = 30 := by
  refine ⟨by rfl, by rfl, by rfl, by rfl, by decide, by decide⟩

/-- C3 (amended): in the 100/300 scenario with a 40-unit shortfall the
reconciler computes proportional slash shares of exactly 10 and 30 units,
rounds each up by one unit to effective losses of 11 and 31, finalizes
withdraw rates 89/100 and 269/300 — both strictly below 1.0 — and marks both
batches released. -/
theorem reconcile_scenario_c3 :
    mulDec 40 (Dec.from_ratio (mulDec 100 Dec.one) 400) = 10
  ∧ mulDec 40 (Dec.from_ratio (mulDec 300 Dec.one) 400) = 30
  ∧ ((okStorage (process_withdraw_rate reconcileScenario 1000 360)).bind
        (fun st => read_unbond_history st.histories 1))
      = some { batch_id := 1, time := 10, amount := 100,
               applied_exchange_rate := Dec.one,
               withdraw_rate := Dec.from_ratio 89 100, released := true }
  ∧ ((okStorage (process_withdraw_rate reconcileScenario 1000 360)).bind
        (fun st => read_unbond_history st.histories 2))
      = some { batch_id := 2, time := 20, amount := 300,
               applied_exchange_rate := Dec.one,
               withdraw_rate := Dec.from_ratio 269 300, released := true }
  ∧ (Dec.from_ratio 89 100).atomics < Dec.one.atomics
  ∧ (Dec.from_ratio 269 300).atomics < Dec.one.atomics := by
  refine ⟨by rfl, by rfl, by rfl, by rfl, by decide, by decide⟩

/-- Reconciliation input for C10: batches of burnt amounts 1 and 999 at rate
1.0 (expected total 1000) and a live balance of 1001 against a previous
balance of 0, so the overall slash is −1 (a one-unit net gain). -/
def underflowScenario : Storage :=
  { state := { total_bond_amount := 0, exchange_rate := Dec.one, last_unbonded_time := 0,
               prev_vault_balance := 0, actual_unbonded_amount := 0,
               last_processed_batch := 0, allow_non_whitelisted := false,
               whitelisted_contracts := [] },
    histories := [ { batch_id := 1, time := 10, amount := 1,
                     applied_exchange_rate := Dec.one, withdraw_rate := Dec.one,
                     released := false },
                   { batch_id := 2, time := 10, amount := 999,
                     applied_exchange_rate := Dec.one, withdraw_rate := Dec.one,
                     released := false } ],
    waitList := [] }

/-- C10: in `underflowScenario` the overall slashed amount is negative
(`SignedInt::from_subtraction(1000, 1001) = (1, negative)`) and batch 1's
proportional share is `floor(1 * 1/1000) = 0`, so the reconciler's
`checked_sub` of one unit underflows: `_process_withdraw_rate`, and with it
the whole `execute_withdraw_unbonded` call, fails with an arithmetic error
and no batch in the range is released (the error result persists nothing). -/
theorem reconciler_gain_underflow_c10 :
    SignedInt.fromSubtraction 1000 1001 = { mag := 1, neg := true }
  ∧ mulDec 1 (Dec.from_ratio (mulDec 1 Dec.one) 1000) = 0
  ∧ process_withdraw_rate underflowScenario 1000 1001 =
      Except.error LunaVaultError.Overflow
  ∧ execute_withdraw_unbonded underflowScenario 1000 0 1001 "bob" "uluna" =
      Except.error LunaVaultError.Overflow := by
  refine ⟨by rfl, by rfl, by rfl, by rfl⟩

/-- The reconciler never touches the unbond wait list. -/
theorem process_withdraw_rate_waitList (st : Storage) (ht vb : Nat) (st1 : Storage)
    (h : process_withdraw_rate st ht vb = Except.ok st1) :
    st1.waitList = st.waitList := by
  simp only [process_withdraw_rate] at h
  split at h
  · split at h
    · exact absurd h (by simp)
    · simp only [Except.ok.injEq] at h
      rw [← h]
  · simp only [Except.ok.injEq] at h
    rw [← h]

/-- After `remove_unbond_wait_list` has dropped the caller's released
batches, every remaining entry of the caller belongs to an unreleased (or
missing) batch. -/
theorem remove_keeps_only_unreleased (st1 : Storage) (s : String) (e : WaitEntry)
    (he : e ∈ (remove_unbond_wait_list st1 (get_unbond_batches st1 s) s).waitList)
    (hu : e.user = s) : released_flag st1.histories e.batch = false := by
  simp only [remove_unbond_wait_list, List.mem_filter] at he
  obtain ⟨hmem, hpred⟩ := he
  by_contra hrel
  have hrel2 : released_flag st1.histories e.batch = true := by
    cases hfl : released_flag st1.histories e.batch
    · exact absurd hfl hrel
    · rfl
  have hin : e.batch ∈ get_unbond_batches st1 s := by
    refine List.mem_map.mpr ⟨e, ?_, rfl⟩
    refine List.mem_filter.mpr ⟨hmem, ?_⟩
    simp [hu, hrel2]
  simp [hu, hin] at hpred

/-- A caller whose every wait entry sits in an unreleased batch has nothing
withdrawable. -/
theorem finished_amount_eq_zero (hs : List UnbondHistory) (s : String) :
    ∀ (l : List WaitEntry),
      (∀ e ∈ l, e.user = s → released_flag hs e.batch = false) →
      finished_amount_list hs s l = 0 := by
  intro l
  induction l with
  | nil => intro _; rfl
  | cons e rest ih =>
    intro hall
    have hrest := ih (fun x hx => hall x (List.mem_cons_of_mem _ hx))
    unfold finished_amount_list
    rw [hrest]
    by_cases hu : e.user == s
    · have hu2 : e.user = s := by simpa using hu
      have hflag := hall e (List.mem_cons_self _ _) hu2
      unfold released_flag at hflag
      cases hr : read_unbond_history hs e.batch with
      | none => simp [hu, hr]
      | some hh =>
        rw [hr] at hflag
        have hflag2 : hh.released = false := hflag
        simp [hu, hr, hflag2]
    · simp [hu]

/-- C9: `execute_withdraw_unbonded` fails with the nothing-to-withdraw error
whenever the caller's summed claims over released batches (after
reconciliation) are zero; and after a successful withdrawal the caller's
consumed `UnbondWaitEntry` records are deleted, so an immediately repeated
call by the same caller — one whose reconciliation succeeds and releases no
new batch (its histories are unchanged) — fails with nothing-to-withdraw
rather than paying again. -/
theorem withdraw_settlement_c9 :
    (∀ (st : Storage) (block_time unbonding_period vault_balance : Nat)
       (sender coin_denom : String) (st1 : Storage),
       process_withdraw_rate st (block_time - unbonding_period) vault_balance =
         Except.ok st1 →
       get_finished_amount st1 sender = 0 →
       execute_withdraw_unbonded st block_time unbonding_period vault_balance
           sender coin_denom =
         Except.error (LunaVaultError.NoWithdrawableAssetsAvailable coin_denom))
  ∧ (∀ (st : Storage) (block_time unbonding_period vault_balance : Nat)
       (sender coin_denom : String) (stp : Storage) (amt : Nat)
       (bt2 up2 vb2 : Nat) (st2 : Storage),
       execute_withdraw_unbonded st block_time unbonding_period vault_balance
           sender coin_denom = Except.ok (stp, amt) →
       process_withdraw_rate stp (bt2 - up2) vb2 = Except.ok st2 →
       st2.histories = stp.histories →
       execute_withdraw_unbonded stp bt2 up2 vb2 sender coin_denom =
         Except.error (LunaVaultError.NoWithdrawableAssetsAvailable coin_denom)) := by
  constructor
  · intro st block_time unbonding_period vault_balance sender coin_denom st1 hp hz
    simp only [execute_withdraw_unbonded, hp, hz, ite_true]
  · intro st block_time unbonding_period vault_balance sender coin_denom stp amt
    intro bt2 up2 vb2 st2 hexec hp2 hhist
    simp only [execute_withdraw_unbonded] at hexec
    cases hp1 : process_withdraw_rate st (block_time - unbonding_period) vault_balance with
    | error e => rw [hp1] at hexec; exact absurd hexec (by simp)
    | ok st1 =>
      rw [hp1] at hexec
      simp only [] at hexec
      by_cases hz1 : get_finished_amount st1 sender = 0
      · rw [if_pos hz1] at hexec
        exact absurd hexec (by simp)
      · rw [if_neg hz1] at hexec
        cases hcs : checked_sub vault_balance (get_finished_amount st1 sender) with
        | error e => rw [hcs] at hexec; exact absurd hexec (by simp)
        | ok prev_balance =>
          rw [hcs] at hexec
          simp only [Except.ok.injEq, Prod.mk.injEq] at hexec
          obtain ⟨hstp, -⟩ := hexec
          have hwl : stp.waitList =
              (remove_unbond_wait_list st1 (get_unbond_batches st1 sender)
                sender).waitList := by
            rw [← hstp]
          have hhs : stp.histories = st1.histories := by
            rw [← hstp]
            rfl
          have hz2 : get_finished_amount st2 sender = 0 := by
            unfold get_finished_amount
            rw [process_withdraw_rate_waitList stp (bt2 - up2) vb2 st2 hp2, hwl, hhist, hhs]
            refine finished_amount_eq_zero st1.histories sender _ ?_
            intro e he hu
            exact remove_keeps_only_unreleased st1 sender e (hwl ▸ hwl ▸ he) hu
          simp only [execute_withdraw_unbonded, hp2, hz2, ite_true]

/-- Witness scenario for C9, first call: one unreleased batch of 50 at rate
1.0 owed entirely to alice; previous balance 50, live balance 100. -/
def withdrawScenario : Storage :=
  { state := { total_bond_amount := 0, exchange_rate := Dec.one, last_unbonded_time := 0,
               prev_vault_balance := 50, actual_unbonded_amount := 0,
               last_processed_batch := 0, allow_non_whitelisted := false,
               whitelisted_contracts := [] },
    histories := [ { batch_id := 1, time := 10, amount := 50,
                     applied_exchange_rate := Dec.one, withdraw_rate := Dec.one,
                     released := false } ],
    waitList := [ { batch := 1, user := "alice", amount := 50 } ] }

/-- The storage after alice's successful 50-unit withdrawal from
`withdrawScenario`: the batch is released, her wait entry is deleted, and
`prev_vault_balance` is the live balance minus the payout. -/
def withdrawScenarioDone : Storage :=
  { state := { total_bond_amount := 0, exchange_rate := Dec.one, last_unbonded_time := 0,
               prev_vault_balance := 50, actual_unbonded_amount := 0,
               last_processed_batch := 1, allow_non_whitelisted := false,
               whitelisted_contracts := [] },
    histories := [ { batch_id := 1, time := 10, amount := 50,
                     applied_exchange_rate := Dec.one, withdraw_rate := Dec.one,
                     released := true } ],
    waitList := [] }

/-- Witness for C9: alice's first withdrawal succeeds and pays 50; repeating
the call immediately (live balance now 50, no new released claims) fails
with the nothing-to-withdraw error instead of paying again. -/
theorem withdraw_settlement_c9_witness :
    execute_withdraw_unbonded withdrawScenario 1000 0 100 "alice" "uluna" =
      Except.ok (withdrawScenarioDone, 50)
  ∧ execute_withdraw_unbonded withdrawScenarioDone 1000 0 50 "alice" "uluna" =
      Except.error (LunaVaultError.NoWithdrawableAssetsAvailable "uluna") :=
  ⟨by rfl,
   withdraw_settlement_c9.2 withdrawScenario 1000 0 100 "alice" "uluna"
     withdrawScenarioDone 50 1000 0 50 withdrawScenarioDone (by rfl) (by rfl) rfl⟩

end LunaVault
